import Mathlib

/-
Shallow embedding of src/Geoprocessing.py.

The repository is a single Streamlit application.  The core operations the
specification describes are:
  load_geodata        (lines 69-97)  : format detection by filename
                      extension, zip extraction and top-level scan for a
                      .shp component, CRS normalization to EPSG:4326;
  commit_changes      (lines 204-219): merge of drawn GeoJSON features into
                      the in-memory GeoDataFrame with per-feature
                      try/except skip semantics;
  download_edited_file (lines 221-245) and convert_and_download
                      (lines 247-271): export with fixed filenames, no
                      MIME type passed to the download widget.

External collaborators (geopandas readers, pyproj reprojection) are taken
as parameters of the embedding; everything the repository itself computes
is embedded concretely.  UI message calls (st.write / st.success /
st.error / st.warning) are modelled as a list of structured Report values,
since several claims are about what is reported.
-/

/-- JSON values, the shape of the drawn-feature payload that
json.loads produces and commit_changes consumes. -/
inductive JVal where
  | null : JVal
  | bool : Bool → JVal
  | num : ℚ → JVal
  | str : String → JVal
  | arr : List JVal → JVal
  | obj : List (String × JVal) → JVal

/-- Python truthiness of a JSON value, as used by the
if drawn_features test on line 205. -/
def JVal.truthy : JVal → Bool
  | .null => false
  | .bool b => b
  | .num q => q != 0
  | .str s => s != ""
  | .arr xs => !xs.isEmpty
  | .obj kvs => !kvs.isEmpty

/-- Python str.lower(): lowercase every character. -/
def pyLower (s : String) : String := String.mk (s.data.map Char.toLower)

/-- Helper for pySplit: split a character list at every separator. -/
def splitCharAux (c : Char) : List Char → List Char → List String
  | [], acc => [String.mk acc.reverse]
  | x :: xs, acc =>
    if x = c then String.mk acc.reverse :: splitCharAux c xs []
    else splitCharAux c xs (x :: acc)

/-- Python str.split(sep) for a one-character separator; the empty string
splits to a singleton list holding the empty string, as in Python. -/
def pySplit (s : String) (c : Char) : List String := splitCharAux c s.data []

/-- Python str.endswith(suffix). -/
def pyEndsWith (s suffix : String) : Bool := suffix.data.isSuffixOf s.data

/-- Helper for strContains: substring occurrence over character lists. -/
def containsSubAux (sub : List Char) : List Char → Bool
  | [] => sub.isEmpty
  | x :: xs => sub.isPrefixOf (x :: xs) || containsSubAux sub xs

/-- Python substring membership sub in s. -/
def strContains (s sub : String) : Bool := containsSubAux sub.data s.data

/-- Python equality of a JSON value against a string literal, used by the
membership test of the in operator on lists. -/
def isStrEq (j : JVal) (k : String) : Bool :=
  match j with
  | .str s => s == k
  | _ => false

/-- Python membership test k in j (line 205).  For a dict it tests keys,
for a list it tests elements, for a string it tests substrings; other
values raise TypeError. -/
def pyContains (j : JVal) (k : String) : Except String Bool :=
  match j with
  | .obj kvs => .ok (kvs.any (fun p => p.1 == k))
  | .arr xs => .ok (xs.any (fun x => isStrEq x k))
  | .str s => .ok (strContains s k)
  | _ => .error "TypeError: argument of non-iterable type"

/-- Python subscript j[k] (lines 206 and 210): KeyError on a dict without
the key, TypeError on non-dict values. -/
def pyGetItem (j : JVal) (k : String) : Except String JVal :=
  match j with
  | .obj kvs =>
    match kvs.find? (fun p => p.1 == k) with
    | some p => .ok p.2
    | none => .error "KeyError"
  | _ => .error "TypeError: not subscriptable"

/-- Python len() (line 207): defined for lists, dicts and strings. -/
def pyLen : JVal → Except String Nat
  | .arr xs => .ok xs.length
  | .obj kvs => .ok kvs.length
  | .str s => .ok s.length
  | _ => .error "TypeError: object has no len"

/-- Python iteration (line 208): a list yields its elements, a dict its
keys, a string its characters; other values raise TypeError. -/
def pyIter : JVal → Except String (List JVal)
  | .arr xs => .ok xs
  | .obj kvs => .ok (kvs.map (fun p => JVal.str p.1))
  | .str s => .ok (s.toList.map (fun c => JVal.str (String.singleton c)))
  | _ => .error "TypeError: not iterable"

/-- Geometry variants of the data model (GeoJSON geometry kinds handled by
shapely.geometry.shape), coordinates as exact rationals. -/
inductive Geom where
  | point : ℚ × ℚ → Geom
  | multiPoint : List (ℚ × ℚ) → Geom
  | lineString : List (ℚ × ℚ) → Geom
  | multiLineString : List (List (ℚ × ℚ)) → Geom
  | polygon : List (List (ℚ × ℚ)) → Geom
  | multiPolygon : List (List (List (ℚ × ℚ))) → Geom

/-- The geom_type attribute used in the success message on line 213. -/
def Geom.geomType : Geom → String
  | .point _ => "Point"
  | .multiPoint _ => "MultiPoint"
  | .lineString _ => "LineString"
  | .multiLineString _ => "MultiLineString"
  | .polygon _ => "Polygon"
  | .multiPolygon _ => "MultiPolygon"

/-- Parse one GeoJSON position: an array starting with two numbers. -/
def parsePos : JVal → Except String (ℚ × ℚ)
  | .arr (.num x :: .num y :: _) => .ok (x, y)
  | _ => .error "invalid position"

/-- Parse an array of positions. -/
def parsePosArray : JVal → Except String (List (ℚ × ℚ))
  | .arr xs => xs.mapM parsePos
  | _ => .error "invalid coordinate array"

/-- Parse an array of arrays of positions. -/
def parsePosArrays : JVal → Except String (List (List (ℚ × ℚ)))
  | .arr xs => xs.mapM parsePosArray
  | _ => .error "invalid coordinate array"

/-- Parse an array of arrays of arrays of positions. -/
def parsePolys : JVal → Except String (List (List (List (ℚ × ℚ))))
  | .arr xs => xs.mapM parsePosArrays
  | _ => .error "invalid coordinate array"

/-- Model of shapely.geometry.shape (imported on line 6, applied on line
210): dispatch on the type member of a GeoJSON geometry object and parse
the coordinates member; any malformed input raises, which the caller
catches. -/
def shape (j : JVal) : Except String Geom :=
  match pyGetItem j "type" with
  | .error e => .error e
  | .ok t =>
    match t with
    | .str "Point" =>
      match pyGetItem j "coordinates" with
      | .error e => .error e
      | .ok c => (parsePos c).map Geom.point
    | .str "MultiPoint" =>
      match pyGetItem j "coordinates" with
      | .error e => .error e
      | .ok c => (parsePosArray c).map Geom.multiPoint
    | .str "LineString" =>
      match pyGetItem j "coordinates" with
      | .error e => .error e
      | .ok c => (parsePosArray c).map Geom.lineString
    | .str "MultiLineString" =>
      match pyGetItem j "coordinates" with
      | .error e => .error e
      | .ok c => (parsePosArrays c).map Geom.multiLineString
    | .str "Polygon" =>
      match pyGetItem j "coordinates" with
      | .error e => .error e
      | .ok c => (parsePosArrays c).map Geom.polygon
    | .str "MultiPolygon" =>
      match pyGetItem j "coordinates" with
      | .error e => .error e
      | .ok c => (parsePolys c).map Geom.multiPolygon
    | _ => .error "unknown geometry type"

/-- A feature: one geometry plus its attribute record (a GeoDataFrame
row). -/
structure Feature where
  geometry : Geom
  attributes : List (String × JVal)

/-- The in-memory dataset: the GeoDataFrame of the source, an ordered
feature sequence plus an optional CRS tag (gdf.crs, none when the source
declared no CRS). -/
structure Dataset where
  features : List Feature
  crs : Option String

/-- The canonical CRS string used on lines 93 and 95 and again on
line 211. -/
def canonicalCRS : String := "EPSG:4326"

/-- CRS normalization, lines 91-95 of load_geodata:
if gdf.crs is None then gdf.set_crs(EPSG:4326) - a pure tag assignment -
else gdf.to_crs(EPSG:4326) - reproject every geometry.  The coordinate
transform of pyproj is external, so it is a parameter T taking the source
CRS, the target CRS and the geometry. -/
def normalize_crs (T : String → String → Geom → Geom) (gdf : Dataset) : Dataset :=
  match gdf.crs with
  | none => { gdf with crs := some canonicalCRS }
  | some src =>
    { features := gdf.features.map
        (fun f => { f with geometry := T src canonicalCRS f.geometry }),
      crs := some canonicalCRS }

/-- The filename extension as computed on line 70:
file.name.split dot, last element, lowercased. -/
def file_extension (name : String) : String :=
  pyLower ((pySplit name '.').getLastD "")

/-- Upload format classification, the if/elif/else chain of load_geodata
(lines 72, 84, 87). -/
inductive UploadFormat where
  | bundle : UploadFormat
  | featureCollection : UploadFormat
  | unsupported : UploadFormat
deriving DecidableEq

/-- Classification of an upload by its filename extension, exactly the
branch structure of load_geodata. -/
def classify (name : String) : UploadFormat :=
  if file_extension name = "zip" then .bundle
  else if file_extension name = "geojson" then .featureCollection
  else .unsupported

/-- First path component of an archive entry: after extractall, the
top-level directory listing contains exactly the first components of the
entry paths. -/
def topComponent (p : String) : String :=
  (pySplit p '/').headD ""

/-- Model of os.listdir(tmpdir) on line 78 after zip_ref.extractall: the
top-level names created by the archive entries (order is OS dependent;
only membership matters to the claims). -/
def listdirTop (entries : List String) : List String :=
  (entries.map topComponent).dedup

/-- The two reported failures of load_geodata: the st.error plus
return None on lines 80-81 (no .shp in the zip) and on lines 88-89
(unsupported extension). -/
inductive LoadError where
  | missingShp : LoadError
  | unsupportedFormat : LoadError
deriving DecidableEq

/-- load_geodata, lines 69-97.  The external readers are parameters:
readShp stands for gpd.read_file on the selected .shp path, readGeojson
for gpd.read_file on the geojson upload, T for the pyproj coordinate
transform used by to_crs.  The zip branch scans os.listdir(tmpdir) for
names ending in .shp (case-sensitive endswith), errors when none is
found, otherwise reads the first; every successful read is followed by
the CRS normalization of lines 91-95. -/
def load_geodata (T : String → String → Geom → Geom) (name : String)
    (entries : List String) (readShp : String → Dataset)
    (readGeojson : Dataset) : Except LoadError Dataset :=
  if file_extension name = "zip" then
    match (listdirTop entries).filter (fun f => pyEndsWith f ".shp") with
    | [] => .error .missingShp
    | shp :: _ => .ok (normalize_crs T (readShp shp))
  else if file_extension name = "geojson" then
    .ok (normalize_crs T readGeojson)
  else
    .error .unsupportedFormat

/-- The UI messages commit_changes emits (st.write, st.success, st.error,
st.warning on lines 207, 213, 215, 216, 218), as structured values. -/
inductive Report where
  | committing : Nat → Report
  | added : String → Report
  | errorAdding : String → Report
  | nowHas : Nat → Report
  | warnNoNew : Report
deriving DecidableEq

/-- The geometry lookup plus parse performed inside the try block on
line 210: feature[geometry] then shape(...); any exception is caught by
the except on line 214. -/
def parseFeatureGeom (feature : JVal) : Except String Geom :=
  match pyGetItem feature "geometry" with
  | .error e => .error e
  | .ok g => shape g

/-- Loop body of commit_changes, lines 208-215: on parse success append a
one-row GeoDataFrame holding only the geometry column (so the new row has
empty attributes) and report the added geometry type; on failure leave the
dataset alone and report the error. -/
def addFeature (acc : Dataset × List Report) (feature : JVal) : Dataset × List Report :=
  match parseFeatureGeom feature with
  | .ok geom =>
    ({ features := acc.1.features ++ [{ geometry := geom, attributes := [] }],
       crs := acc.1.crs },
     acc.2 ++ [Report.added geom.geomType])
  | .error e => (acc.1, acc.2 ++ [Report.errorAdding e])

/-- commit_changes, lines 204-219.  The guard on line 205 is Python
truthiness followed by a membership test; the loop of lines 208-215 is
the fold over the features value; the function returns only the updated
GeoDataFrame together with the reports it emitted. -/
def commit_changes (gdf : Dataset) (drawn_features : Option JVal) :
    Except String (Dataset × List Report) :=
  match drawn_features with
  | none => .ok (gdf, [Report.warnNoNew])
  | some j =>
    if j.truthy then
      match pyContains j "features" with
      | .error e => .error e
      | .ok false => .ok (gdf, [Report.warnNoNew])
      | .ok true =>
        match pyGetItem j "features" with
        | .error e => .error e
        | .ok nf =>
          match pyLen nf with
          | .error e => .error e
          | .ok n =>
            match pyIter nf with
            | .error e => .error e
            | .ok items =>
              let r := items.foldl addFeature (gdf, [])
              .ok (r.1, [Report.committing n] ++ r.2
                    ++ [Report.nowHas r.1.features.length])
    else .ok (gdf, [Report.warnNoNew])

/-- The features successfully appended by the merge loop for a given list
of drawn features: exactly the parse successes, in order, each with empty
attributes. -/
def drawnFeature? (f : JVal) : Option Feature :=
  match parseFeatureGeom f with
  | .ok g => some { geometry := g, attributes := [] }
  | .error _ => none

/-- All features the loop appends, in order. -/
def appendedFeatures (fs : List JVal) : List Feature :=
  fs.filterMap drawnFeature?

/-- True when a drawn feature parses, i.e. when the loop appends it. -/
def validDrawn (f : JVal) : Bool :=
  match parseFeatureGeom f with
  | .ok _ => true
  | .error _ => false

/-- The per-feature report the loop emits. -/
def reportOf (f : JVal) : Report :=
  match parseFeatureGeom f with
  | .ok g => Report.added g.geomType
  | .error e => Report.errorAdding e

/-- The per-feature reports of the whole loop, one per input feature. -/
def featureReports (fs : List JVal) : List Report :=
  fs.map reportOf

/-- True for the error report of a skipped feature. -/
def isErrorReport : Report → Bool
  | .errorAdding _ => true
  | _ => false

/-- A feature-collection payload holding the given feature list, the shape
json.loads gives the drawn data of the map widget. -/
def fcPayload (fs : List JVal) : JVal :=
  JVal.obj [("type", JVal.str "FeatureCollection"), ("features", JVal.arr fs)]

/-- Modelled from the spec: the MergeDrawnGeometry interface of section 6
returns the updated Dataset together with the count of features actually
appended.  Declared for refinement comparison against commit_changes,
which the source gives no count return value. -/
def MergeDrawnGeometry_spec (d : Dataset) (fs : List JVal) : Dataset × Nat :=
  ({ features := d.features ++ appendedFeatures fs, crs := d.crs },
   (appendedFeatures fs).length)

/-- The numeric counts carried by a report list: commit_changes displays
the submitted-feature count and the resulting total. -/
def reportedCounts (reps : List Report) : List Nat :=
  reps.filterMap (fun r =>
    match r with
    | .committing n => some n
    | .nowHas n => some n
    | _ => none)

/-- Export format selector of the two download sections. -/
inductive ExportFormat where
  | geojson : ExportFormat
  | shapefile : ExportFormat
deriving DecidableEq

/-- What the source hands to st.download_button: the fixed filename, the
mime argument (the source passes none - st.download_button is called with
label, data and file_name only, lines 238-242 and 264-268), whether the
data is a Python str (gdf.to_json) or bytes (the archive), and for the
archive the member names. -/
structure DownloadPayload where
  fileName : String
  mimeArg : Option String
  isText : Bool
  archiveMembers : List String
deriving DecidableEq

/-- Modelled from the documented ESRI Shapefile driver used by gdf.to_file
(lines 232 and 258): writing basename.shp also writes the companion
attribute (.dbf) and index (.shx) files sharing the basename; the
subsequent make_archive zips the scratch directory holding them. -/
def shapefile_components (base : String) : List String :=
  [base ++ ".shp", base ++ ".shx", base ++ ".dbf"]

/-- download_edited_file, lines 221-245: GeoJSON gives the string
gdf.to_json() under the fixed name edited_file.geojson, Shapefile gives
the archive of the edited_file components under the fixed name
edited_file_shapefile.zip; st.download_button receives no mime
argument. -/
def download_edited_file (gdf : Dataset) (fmt : ExportFormat) : DownloadPayload :=
  match fmt with
  | .geojson =>
    { fileName := "edited_file.geojson", mimeArg := none, isText := true,
      archiveMembers := [] }
  | .shapefile =>
    { fileName := "edited_file_shapefile.zip", mimeArg := none, isText := false,
      archiveMembers := shapefile_components "edited_file" }

/-- convert_and_download, lines 247-271: identical to
download_edited_file up to the fixed basenames converted and
converted_shapefile. -/
def convert_and_download (gdf : Dataset) (fmt : ExportFormat) : DownloadPayload :=
  match fmt with
  | .geojson =>
    { fileName := "converted.geojson", mimeArg := none, isText := true,
      archiveMembers := [] }
  | .shapefile =>
    { fileName := "converted_shapefile.zip", mimeArg := none, isText := false,
      archiveMembers := shapefile_components "converted" }

/-
Helper lemmas shared by several claim theorems.
-/

/-- Mapping the identity reprojection over a feature list changes
nothing. -/
theorem map_reproject_id (T : String → String → Geom → Geom)
    (hT : ∀ g : Geom, T canonicalCRS canonicalCRS g = g) :
    ∀ l : List Feature,
      l.map (fun f => { f with geometry := T canonicalCRS canonicalCRS f.geometry }) = l := by
  intro l
  induction l with
  | nil => rfl
  | cons a l ih =>
    obtain ⟨g, attrs⟩ := a
    simp [hT, ih]

/-- C1: for every loaded Dataset the normalization of lines 91-95 yields
crs equal to the canonical EPSG:4326; a source with no declared CRS gets
the canonical tag assigned directly with no coordinate transformed; a
source with a declared CRS has every geometry reprojected by the
src-to-canonical transform; when the declared CRS already equals the
canonical one the Dataset is left unchanged (the pyproj transform between
identical CRS is the identity, hypothesis hT); and any Dataset
load_geodata returns carries the canonical crs. -/
theorem crs_normalizer_policy (T : String → String → Geom → Geom)
    (hT : ∀ g : Geom, T canonicalCRS canonicalCRS g = g) (d : Dataset) :
    (normalize_crs T d).crs = some canonicalCRS
    ∧ (d.crs = none → normalize_crs T d = { d with crs := some canonicalCRS })
    ∧ (∀ src, d.crs = some src →
        (normalize_crs T d).features
          = d.features.map (fun f => { f with geometry := T src canonicalCRS f.geometry }))
    ∧ (d.crs = some canonicalCRS → normalize_crs T d = d)
    ∧ (∀ name entries readShp readGeojson d2,
        load_geodata T name entries readShp readGeojson = .ok d2 →
        d2.crs = some canonicalCRS) := by
  obtain ⟨fs, crs⟩ := d
  have hcrs : ∀ x : Dataset, (normalize_crs T x).crs = some canonicalCRS := by
    intro x
    cases hx : x.crs <;> simp [normalize_crs, hx]
  have hload : ∀ name entries readShp readGeojson d2,
      load_geodata T name entries readShp readGeojson = .ok d2 →
      d2.crs = some canonicalCRS := by
    intro name entries readShp readGeojson d2 h
    unfold load_geodata at h
    split at h
    · split at h
      · cases h
      · obtain ⟨⟨⟩⟩ := h
        exact hcrs _
    · split at h
      · obtain ⟨⟨⟩⟩ := h
        exact hcrs _
      · cases h
  cases crs with
  | none =>
    refine ⟨rfl, fun _ => rfl, ?_, ?_, hload⟩
    · intro src h
      exact Option.noConfusion h
    · intro h
      exact Option.noConfusion h
  | some c =>
    refine ⟨rfl, ?_, ?_, ?_, hload⟩
    · intro h
      exact Option.noConfusion h
    · intro src h
      obtain ⟨⟨⟩⟩ := h
      rfl
    · intro h
      obtain ⟨⟨⟩⟩ := h
      show Dataset.mk _ _ = _
      rw [map_reproject_id T hT]

/-- C1 witness: the policy evaluated with the identity transform on a
dataset tagged with the canonical CRS. -/
theorem crs_normalizer_policy_witness :
    (normalize_crs (fun _ _ g => g)
        { features := [{ geometry := Geom.point (3, 4), attributes := [] }],
          crs := some canonicalCRS }).crs = some canonicalCRS
    ∧ normalize_crs (fun _ _ g => g)
        { features := [{ geometry := Geom.point (3, 4), attributes := [] }],
          crs := some canonicalCRS }
      = { features := [{ geometry := Geom.point (3, 4), attributes := [] }],
          crs := some canonicalCRS } := by
  have h := crs_normalizer_policy (fun _ _ g => g) (fun g => rfl)
    { features := [{ geometry := Geom.point (3, 4), attributes := [] }],
      crs := some canonicalCRS }
  exact ⟨h.1, h.2.2.2.1 rfl⟩

/-- C6: the CRS normalization of lines 91-95 is idempotent: applying it
twice yields the same Dataset as applying it once (with the pyproj
transform between identical CRS being the identity, hypothesis hT). -/
theorem crs_normalizer_idempotent (T : String → String → Geom → Geom)
    (hT : ∀ g : Geom, T canonicalCRS canonicalCRS g = g) (d : Dataset) :
    normalize_crs T (normalize_crs T d) = normalize_crs T d := by
  obtain ⟨fs, crs⟩ := d
  cases crs with
  | none =>
    show Dataset.mk _ _ = _
    rw [show (normalize_crs T (Dataset.mk fs none)).features = fs from rfl]
    exact congrArg (Dataset.mk · _) (map_reproject_id T hT fs)
  | some c =>
    show Dataset.mk _ _ = _
    exact congrArg (Dataset.mk · _) (map_reproject_id T hT _)

/-- C6 witness: idempotence evaluated with the identity transform on a
dataset with a non-canonical declared CRS. -/
theorem crs_normalizer_idempotent_witness :
    normalize_crs (fun _ _ g => g)
        (normalize_crs (fun _ _ g => g)
          { features := [{ geometry := Geom.point (5, 6), attributes := [] }],
            crs := some "EPSG:27700" })
      = normalize_crs (fun _ _ g => g)
          { features := [{ geometry := Geom.point (5, 6), attributes := [] }],
            crs := some "EPSG:27700" } :=
  crs_normalizer_idempotent (fun _ _ g => g) (fun g => rfl)
    { features := [{ geometry := Geom.point (5, 6), attributes := [] }],
      crs := some "EPSG:27700" }

/-- The merge loop in closed form: folding addFeature over the drawn
features appends exactly the parse successes (with empty attributes, crs
untouched) and emits one report per input feature, in order. -/
theorem foldl_addFeature (fs : List JVal) :
    ∀ (d : Dataset) (reps : List Report),
      fs.foldl addFeature (d, reps)
        = ({ features := d.features ++ appendedFeatures fs, crs := d.crs },
           reps ++ featureReports fs) := by
  induction fs with
  | nil =>
    intro d reps
    obtain ⟨dfs, dcrs⟩ := d
    simp [appendedFeatures, featureReports]
  | cons f fs ih =>
    intro d reps
    rw [List.foldl_cons]
    rcases hpf : parseFeatureGeom f with e | g
    · rw [show addFeature (d, reps) f = (d, reps ++ [Report.errorAdding e]) from by
        simp [addFeature, hpf]]
      rw [ih]
      simp [appendedFeatures, featureReports, drawnFeature?, reportOf, hpf]
    · rw [show addFeature (d, reps) f
          = ({ features := d.features ++ [{ geometry := g, attributes := [] }],
               crs := d.crs },
             reps ++ [Report.added g.geomType]) from by
        simp [addFeature, hpf]]
      rw [ih]
      simp [appendedFeatures, featureReports, drawnFeature?, reportOf, hpf]

/-- commit_changes on a feature-collection payload, in closed form. -/
theorem commit_changes_fc (gdf : Dataset) (fs : List JVal) :
    commit_changes gdf (some (fcPayload fs))
      = .ok ({ features := gdf.features ++ appendedFeatures fs, crs := gdf.crs },
             [Report.committing fs.length] ++ featureReports fs
               ++ [Report.nowHas (gdf.features.length + (appendedFeatures fs).length)]) := by
  have h0 : commit_changes gdf (some (fcPayload fs))
      = .ok ((fs.foldl addFeature (gdf, [])).1,
             [Report.committing fs.length] ++ (fs.foldl addFeature (gdf, [])).2
               ++ [Report.nowHas (fs.foldl addFeature (gdf, [])).1.features.length]) := rfl
  rw [h0, foldl_addFeature]
  simp

/-- The number of appended features equals the number of drawn features
whose geometry parses. -/
theorem length_appendedFeatures (fs : List JVal) :
    (appendedFeatures fs).length = fs.countP validDrawn := by
  induction fs with
  | nil => rfl
  | cons f fs ih =>
    rcases hpf : parseFeatureGeom f with e | g <;>
      simp [appendedFeatures, drawnFeature?, validDrawn, hpf, List.countP_cons,
        appendedFeatures] at ih ⊢ <;> omega

/-- Every appended feature has empty attributes. -/
theorem appendedFeatures_attrs (fs : List JVal) :
    ∀ fe ∈ appendedFeatures fs, fe.attributes = [] := by
  intro fe hfe
  obtain ⟨a, _, ha⟩ := List.mem_filterMap.mp hfe
  unfold drawnFeature? at ha
  rcases hpf : parseFeatureGeom a with e | g <;> rw [hpf] at ha
  · cases ha
  · obtain ⟨⟨⟩⟩ := ha
    rfl

/-- C3: an absent payload (None), an empty-string payload, an empty dict
and an empty feature collection are all no-ops of commit_changes: the
Dataset comes back unchanged, zero features are appended, and only a
warning or the zero counts are reported. -/
theorem merge_empty_payload_noop (d : Dataset) :
    commit_changes d none = .ok (d, [Report.warnNoNew])
    ∧ commit_changes d (some (JVal.str "")) = .ok (d, [Report.warnNoNew])
    ∧ commit_changes d (some (JVal.obj [])) = .ok (d, [Report.warnNoNew])
    ∧ commit_changes d (some (fcPayload []))
        = .ok (d, [Report.committing 0, Report.nowHas d.features.length])
    ∧ appendedFeatures [] = [] := by
  refine ⟨rfl, rfl, rfl, ?_, rfl⟩
  have h := commit_changes_fc d []
  rw [h]
  obtain ⟨dfs, dcrs⟩ := d
  simp [appendedFeatures, featureReports]

/-- The per-feature report of a skipped feature is an error report, and of
an appended feature an added report. -/
theorem isErrorReport_reportOf (f : JVal) :
    isErrorReport (reportOf f) = !validDrawn f := by
  unfold reportOf validDrawn
  rcases hpf : parseFeatureGeom f with e | g <;> rfl

/-- C2: for every merge input mixing parse failures with parse successes,
commit_changes runs the loop over every feature, appends exactly the
features whose geometry parses (as many as there are valid features, at
least one and fewer than all), reports one error per invalid feature, and
does not abort: the result is ok, never an exception. -/
theorem merge_skips_invalid_features (gdf : Dataset) (fs : List JVal)
    (hvalid : ∃ f ∈ fs, validDrawn f = true)
    (hinvalid : ∃ f ∈ fs, validDrawn f = false) :
    commit_changes gdf (some (fcPayload fs))
      = .ok ({ features := gdf.features ++ appendedFeatures fs, crs := gdf.crs },
             [Report.committing fs.length] ++ featureReports fs
               ++ [Report.nowHas (gdf.features.length + (appendedFeatures fs).length)])
    ∧ (appendedFeatures fs).length = fs.countP validDrawn
    ∧ 0 < (appendedFeatures fs).length
    ∧ (appendedFeatures fs).length < fs.length
    ∧ (featureReports fs).length = fs.length
    ∧ (featureReports fs).countP isErrorReport = fs.countP (fun f => !validDrawn f) := by
  refine ⟨commit_changes_fc gdf fs, length_appendedFeatures fs, ?_, ?_, ?_, ?_⟩
  · rw [length_appendedFeatures]
    exact List.countP_pos_iff.mpr hvalid
  · rw [length_appendedFeatures]
    have hle : fs.countP validDrawn ≤ fs.length := List.countP_le_length _
    rcases Nat.lt_or_ge (fs.countP validDrawn) fs.length with h | h
    · exact h
    · exfalso
      obtain ⟨f, hf, hfv⟩ := hinvalid
      have hall := List.countP_eq_length.mp (Nat.le_antisymm hle h)
      rw [hall f hf] at hfv
      cases hfv
  · exact List.length_map _ _
  · rw [featureReports, List.countP_map]
    exact List.countP_congr (fun f _ => by rw [Function.comp_apply, isErrorReport_reportOf])

/-- A base dataset with one attributed feature, used as the concrete
input of several witnesses. -/
def wBase : Dataset :=
  { features := [{ geometry := Geom.point (10, 20),
                   attributes := [("name", JVal.str "base")] }],
    crs := some canonicalCRS }

/-- A drawn GeoJSON feature with a valid Point geometry. -/
def wPointA : JVal :=
  JVal.obj [("type", JVal.str "Feature"), ("properties", JVal.obj []),
    ("geometry", JVal.obj [("type", JVal.str "Point"),
      ("coordinates", JVal.arr [JVal.num 0, JVal.num 1])])]

/-- A drawn feature whose geometry is invalid: unknown geometry type. -/
def wBad : JVal :=
  JVal.obj [("type", JVal.str "Feature"), ("properties", JVal.obj []),
    ("geometry", JVal.obj [("type", JVal.str "Bogus"),
      ("coordinates", JVal.arr [])])]

/-- A second drawn GeoJSON feature with a valid Point geometry. -/
def wPointB : JVal :=
  JVal.obj [("type", JVal.str "Feature"), ("properties", JVal.obj []),
    ("geometry", JVal.obj [("type", JVal.str "Point"),
      ("coordinates", JVal.arr [JVal.num 2, JVal.num 3])])]

/-- C2 witness: three drawn features, one invalid; exactly two are
appended and the loop runs to the end. -/
theorem merge_skips_invalid_features_witness :
    commit_changes wBase (some (fcPayload [wPointA, wBad, wPointB]))
      = .ok ({ features := wBase.features ++ appendedFeatures [wPointA, wBad, wPointB],
               crs := wBase.crs },
             [Report.committing 3] ++ featureReports [wPointA, wBad, wPointB]
               ++ [Report.nowHas (wBase.features.length
                     + (appendedFeatures [wPointA, wBad, wPointB]).length)])
    ∧ 0 < (appendedFeatures [wPointA, wBad, wPointB]).length
    ∧ (appendedFeatures [wPointA, wBad, wPointB]).length < 3 := by
  have h := merge_skips_invalid_features wBase [wPointA, wBad, wPointB]
    (by decide) (by decide)
  exact ⟨h.1, h.2.2.1, h.2.2.2.1⟩

/-- C7 counterexample: the claim says the merge returns the updated
Dataset together with a count of the features actually appended.  At this
concrete input (base dataset of one feature, three drawn features of
which one is invalid) the code appends two features, yet commit_changes
returns only the GeoDataFrame: the sole return value is the Dataset, and
the only numbers it emits are the submitted count (3, on line 207,
counting the skipped feature too) and the resulting total (3, on line
216); the appended count 2 appears in no output of the function, and the
value the spec-side MergeDrawnGeometry would return as second component
is 2. -/
theorem merge_count_counterexample :
    commit_changes wBase (some (fcPayload [wPointA, wBad, wPointB]))
      = .ok ({ features := wBase.features ++ appendedFeatures [wPointA, wBad, wPointB],
               crs := wBase.crs },
             [Report.committing 3] ++ featureReports [wPointA, wBad, wPointB]
               ++ [Report.nowHas 3])
    ∧ (MergeDrawnGeometry_spec wBase [wPointA, wBad, wPointB]).2 = 2
    ∧ reportedCounts ([Report.committing 3] ++ featureReports [wPointA, wBad, wPointB]
        ++ [Report.nowHas 3]) = [3, 3]
    ∧ ¬ (2 : Nat) ∈ reportedCounts ([Report.committing 3]
        ++ featureReports [wPointA, wBad, wPointB] ++ [Report.nowHas 3]) := by
  refine ⟨rfl, rfl, rfl, by decide⟩

/-- C7 as amended: commit_changes returns only the updated Dataset (plus
the messages it displays); that Dataset refines the spec-side merge
result, and the count of features actually appended - the second
component the spec interface asks for - is recoverable as the length
difference, equal to the number of drawn features whose geometry parses,
skipped features not counted. -/
theorem merge_returns_dataset_only (gdf : Dataset) (fs : List JVal) :
    commit_changes gdf (some (fcPayload fs))
      = .ok ((MergeDrawnGeometry_spec gdf fs).1,
             [Report.committing fs.length] ++ featureReports fs
               ++ [Report.nowHas (gdf.features.length + (appendedFeatures fs).length)])
    ∧ (MergeDrawnGeometry_spec gdf fs).2 = fs.countP validDrawn
    ∧ (MergeDrawnGeometry_spec gdf fs).1.features.length - gdf.features.length
        = (MergeDrawnGeometry_spec gdf fs).2 := by
  refine ⟨commit_changes_fc gdf fs, length_appendedFeatures fs, ?_⟩
  simp [MergeDrawnGeometry_spec]

/-- C8: commit_changes is append-only: whenever it returns a Dataset,
that Dataset keeps every pre-existing feature (geometry, attributes and
relative order) as a prefix, preserves the crs, and the only change is a
suffix of newly constructed features each carrying empty attributes. -/
theorem features_append_only (gdf : Dataset) (p : Option JVal)
    (d2 : Dataset) (reps : List Report)
    (h : commit_changes gdf p = .ok (d2, reps)) :
    ∃ new, d2.features = gdf.features ++ new
      ∧ (∀ fe ∈ new, fe.attributes = [])
      ∧ d2.crs = gdf.crs := by
  cases p with
  | none =>
    refine ⟨[], ?_, by simp, ?_⟩ <;>
      · obtain ⟨⟨⟩⟩ := h
        simp
  | some j =>
    simp only [commit_changes] at h
    split at h
    · split at h
      · cases h
      · obtain ⟨⟨⟩⟩ := h
        exact ⟨[], by simp, by simp, rfl⟩
      · split at h
        · cases h
        · split at h
          · cases h
          · split at h
            · cases h
            · simp only [foldl_addFeature] at h
              obtain ⟨⟨⟩⟩ := h
              exact ⟨appendedFeatures _, rfl, appendedFeatures_attrs _, rfl⟩
    · obtain ⟨⟨⟩⟩ := h
      exact ⟨[], by simp, by simp, rfl⟩

/-- C8 witness: at a concrete merge of one valid and one invalid drawn
feature, the pre-existing attributed feature survives as the prefix of
the result and the appended suffix has empty attributes. -/
theorem features_append_only_witness :
    ({ features := wBase.features ++ appendedFeatures [wPointA, wBad],
       crs := wBase.crs } : Dataset).features.take wBase.features.length
      = wBase.features := by
  obtain ⟨new, hnew, -, -⟩ := features_append_only wBase
    (some (fcPayload [wPointA, wBad]))
    { features := wBase.features ++ appendedFeatures [wPointA, wBad], crs := wBase.crs }
    ([Report.committing 2] ++ featureReports [wPointA, wBad] ++ [Report.nowHas 2])
    (commit_changes_fc wBase [wPointA, wBad])
  rw [hnew]
  exact List.take_left _ _

/-- C4: upload classification is decided by the filename extension (the
lowercased last dot-segment of the name, line 70): zip names classify as
Bundle, geojson names as FeatureCollection, and any other extension as
Unsupported, in which case load_geodata halts for that upload with the
reported unsupported-format error and produces no Dataset. -/
theorem format_detection_by_extension (name : String) :
    (classify name = UploadFormat.bundle ↔ file_extension name = "zip")
    ∧ (classify name = UploadFormat.featureCollection ↔ file_extension name = "geojson")
    ∧ (classify name = UploadFormat.unsupported ↔
        (file_extension name ≠ "zip" ∧ file_extension name ≠ "geojson"))
    ∧ (∀ (T : String → String → Geom → Geom) entries readShp readGeojson,
        classify name = UploadFormat.unsupported →
        load_geodata T name entries readShp readGeojson
          = .error LoadError.unsupportedFormat) := by
  by_cases h1 : file_extension name = "zip"
  · simp [classify, load_geodata, h1]
  · by_cases h2 : file_extension name = "geojson" <;>
      simp [classify, load_geodata, h1, h2]

/-- C4 witness: a kml-named upload is classified Unsupported and
load_geodata reports the error without producing a Dataset. -/
theorem format_detection_by_extension_witness :
    classify "map.kml" = UploadFormat.unsupported
    ∧ load_geodata (fun _ _ g => g) "map.kml" [] (fun _ => wBase) wBase
        = .error LoadError.unsupportedFormat := by
  have h := format_detection_by_extension "map.kml"
  have hu : classify "map.kml" = UploadFormat.unsupported :=
    h.2.2.1.mpr ⟨by decide, by decide⟩
  exact ⟨hu, h.2.2.2 (fun _ _ g => g) [] (fun _ => wBase) wBase hu⟩

/-- When no top-level name of the extracted archive ends in .shp, the scan
on line 78 comes up empty. -/
theorem no_top_shp_scan (entries : List String)
    (h : ∀ e ∈ entries, pyEndsWith (topComponent e) ".shp" = false) :
    (listdirTop entries).filter (fun f => pyEndsWith f ".shp") = [] := by
  rw [List.filter_eq_nil_iff]
  intro a ha
  have ha2 : a ∈ (entries.map topComponent).dedup := ha
  obtain ⟨e, he, rfl⟩ := List.mem_map.mp (List.mem_dedup.mp ha2)
  simp [h e he]

/-- C5: a zip upload whose archive holds no geometry component - no entry
with a path component ending in .shp - makes load_geodata fail with the
reported missing-component error, returning no Dataset. -/
theorem missing_bundle_component (T : String → String → Geom → Geom)
    (name : String) (entries : List String) (readShp : String → Dataset)
    (readGeojson : Dataset)
    (hzip : file_extension name = "zip")
    (hnoshp : ∀ e ∈ entries, ∀ c ∈ pySplit e '/', pyEndsWith c ".shp" = false) :
    load_geodata T name entries readShp readGeojson = .error LoadError.missingShp := by
  have htop : ∀ e ∈ entries, pyEndsWith (topComponent e) ".shp" = false := by
    intro e he
    unfold topComponent
    rcases hs : pySplit e '/' with _ | ⟨c, cs⟩
    · decide
    · exact hnoshp e he c (by rw [hs]; exact List.mem_cons_self c cs)
  simp [load_geodata, hzip, no_top_shp_scan entries htop]

/-- C5 witness: a zip with only attribute and index companions yields the
missing-component error. -/
theorem missing_bundle_component_witness :
    load_geodata (fun _ _ g => g) "data.zip" ["layer.dbf", "layer.prj"]
      (fun _ => wBase) wBase = .error LoadError.missingShp :=
  missing_bundle_component (fun _ _ g => g) "data.zip" ["layer.dbf", "layer.prj"]
    (fun _ => wBase) wBase (by decide) (by decide)

/-- C10: the bundle scan looks only at the top level of the extraction
directory and matches the .shp suffix case-sensitively: a zip upload
whose archive does contain a geometry component (some entry ends in .shp
up to case) but has no top-level name ending in lowercase .shp - because
the component sits in a subdirectory or is named with uppercase .SHP -
still fails with the missing-component error. -/
theorem bundle_scan_top_level_case_sensitive (T : String → String → Geom → Geom)
    (name : String) (entries : List String) (readShp : String → Dataset)
    (readGeojson : Dataset)
    (hzip : file_extension name = "zip")
    (hpresent : ∃ e ∈ entries, pyEndsWith (pyLower e) ".shp" = true)
    (hnotop : ∀ e ∈ entries, pyEndsWith (topComponent e) ".shp" = false) :
    load_geodata T name entries readShp readGeojson = .error LoadError.missingShp := by
  simp [load_geodata, hzip, no_top_shp_scan entries hnotop]

/-- C10 witness: one archive with its .shp only inside a subdirectory,
one with only an uppercase .SHP, both rejected. -/
theorem bundle_scan_top_level_case_sensitive_witness :
    load_geodata (fun _ _ g => g) "b.zip" ["data/roads.shp"]
      (fun _ => wBase) wBase = .error LoadError.missingShp
    ∧ load_geodata (fun _ _ g => g) "b.zip" ["ROADS.SHP"]
      (fun _ => wBase) wBase = .error LoadError.missingShp :=
  ⟨bundle_scan_top_level_case_sensitive (fun _ _ g => g) "b.zip" ["data/roads.shp"]
      (fun _ => wBase) wBase (by decide) (by decide) (by decide),
   bundle_scan_top_level_case_sensitive (fun _ _ g => g) "b.zip" ["ROADS.SHP"]
      (fun _ => wBase) wBase (by decide) (by decide) (by decide)⟩

/-- C9 counterexample: the claim fixes the export mimetypes to
application/json and application/zip, but the source calls
st.download_button with label, data and file_name only: no mimetype is
passed for either format, so the widget falls back to its library
default instead of the claimed values. -/
theorem export_mime_counterexample :
    (download_edited_file wBase ExportFormat.geojson).mimeArg = none
    ∧ ¬ (download_edited_file wBase ExportFormat.geojson).mimeArg
        = some "application/json"
    ∧ (download_edited_file wBase ExportFormat.shapefile).mimeArg = none
    ∧ ¬ (download_edited_file wBase ExportFormat.shapefile).mimeArg
        = some "application/zip"
    ∧ (convert_and_download wBase ExportFormat.geojson).mimeArg = none
    ∧ (convert_and_download wBase ExportFormat.shapefile).mimeArg = none := by
  refine ⟨rfl, by decide, rfl, by decide, rfl, rfl⟩

/-- C9 as amended: the export filenames are fixed by the chosen format
(edited_file.geojson / edited_file_shapefile.zip and converted.geojson /
converted_shapefile.zip), the feature-collection export is text and the
bundle export an archive containing the geometry, attribute and index
companion files sharing one basename; no mimetype is specified by the
code, the download widget receiving only label, data and filename. -/
theorem export_fixed_filenames (gdf : Dataset) :
    download_edited_file gdf ExportFormat.geojson
      = { fileName := "edited_file.geojson", mimeArg := none, isText := true,
          archiveMembers := [] }
    ∧ download_edited_file gdf ExportFormat.shapefile
      = { fileName := "edited_file_shapefile.zip", mimeArg := none, isText := false,
          archiveMembers := ["edited_file.shp", "edited_file.shx", "edited_file.dbf"] }
    ∧ convert_and_download gdf ExportFormat.geojson
      = { fileName := "converted.geojson", mimeArg := none, isText := true,
          archiveMembers := [] }
    ∧ convert_and_download gdf ExportFormat.shapefile
      = { fileName := "converted_shapefile.zip", mimeArg := none, isText := false,
          archiveMembers := ["converted.shp", "converted.shx", "converted.dbf"] } :=
  ⟨rfl, rfl, rfl, rfl⟩
